import Mathlib

/-!
Verification development for the `os-gateway-contract-attributes` crate.

The crate builds string key/value "event attributes" consumed by an external
object-store-gateway service.  Two builder implementations exist:

* `OsGatewayAttributeGenerator` (src/attribute_generator.rs), backed by a
  `BTreeMap<String, String>`, modelled here as a key-sorted association list
  with sorted insertion (`insertSorted`);
* `OsGatewayEventAttributes` (src/lib.rs), backed by a
  `HashMap<String, String>`, modelled as an association list where insertion
  replaces an existing key in place and otherwise appends (`insertHash`);
  this represents the map content exactly, while the real iteration order
  of a `HashMap` is unspecified.

The constant catalogs of src/attribute_consts.rs, src/attribute_keys.rs and
src/attribute_event_types.rs are embedded verbatim.
-/

/-- Key constant from src/attribute_consts.rs: `EVENT_TYPE_KEY`. -/
def EVENT_TYPE_KEY : String := "object_store_gateway_event_type"

/-- Key constant from src/attribute_consts.rs: `SCOPE_ADDRESS_KEY`. -/
def SCOPE_ADDRESS_KEY : String := "object_store_gateway_scope_address"

/-- Key constant from src/attribute_consts.rs: `TARGET_ACCOUNT_KEY`. -/
def TARGET_ACCOUNT_KEY : String := "object_store_gateway_target_account_address"

/-- Key constant from src/attribute_consts.rs: `ACCESS_GRANT_ID_KEY`. -/
def ACCESS_GRANT_ID_KEY : String := "object_store_gateway_access_grant_id"

/-- Value constant from src/attribute_consts.rs: `ACCESS_GRANT_VALUE`. -/
def ACCESS_GRANT_VALUE : String := "access_grant"

/-- Value constant from src/attribute_consts.rs: `ACCESS_REVOKE_VALUE`. -/
def ACCESS_REVOKE_VALUE : String := "access_revoke"

/-- Struct `OsGatewayEventTypes` of src/attribute_event_types.rs. -/
structure OsGatewayEventTypes where
  access_grant : String
  access_revoke : String

namespace AttributeEventTypes

/-- Private constant `ACCESS_GRANT_VALUE` local to src/attribute_event_types.rs. -/
def ACCESS_GRANT_VALUE : String := "access_grant"

/-- Private constant `ACCESS_REVOKE_VALUE` local to src/attribute_event_types.rs. -/
def ACCESS_REVOKE_VALUE : String := "access_revoke"

end AttributeEventTypes

/-- Constant `OS_GATEWAY_EVENT_TYPES` of src/attribute_event_types.rs. -/
def OS_GATEWAY_EVENT_TYPES : OsGatewayEventTypes :=
  { access_grant := AttributeEventTypes.ACCESS_GRANT_VALUE
    access_revoke := AttributeEventTypes.ACCESS_REVOKE_VALUE }

/-- Struct `OsGatewayKeys` of src/attribute_keys.rs. -/
structure OsGatewayKeys where
  event_type : String
  scope_address : String
  target_account : String
  access_grant_id : String

namespace AttributeKeys

/-- Private constant `EVENT_TYPE_KEY` local to src/attribute_keys.rs. -/
def EVENT_TYPE_KEY : String := "object_store_gateway_event_type"

/-- Private constant `SCOPE_ADDRESS_KEY` local to src/attribute_keys.rs. -/
def SCOPE_ADDRESS_KEY : String := "object_store_gateway_scope_address"

/-- Private constant `TARGET_ACCOUNT_KEY` local to src/attribute_keys.rs. -/
def TARGET_ACCOUNT_KEY : String := "object_store_gateway_target_account_address"

/-- Private constant `ACCESS_GRANT_ID_KEY` local to src/attribute_keys.rs. -/
def ACCESS_GRANT_ID_KEY : String := "object_store_gateway_access_grant_id"

end AttributeKeys

/-- Constant `OS_GATEWAY_KEYS` of src/attribute_keys.rs. -/
def OS_GATEWAY_KEYS : OsGatewayKeys :=
  { event_type := AttributeKeys.EVENT_TYPE_KEY
    scope_address := AttributeKeys.SCOPE_ADDRESS_KEY
    target_account := AttributeKeys.TARGET_ACCOUNT_KEY
    access_grant_id := AttributeKeys.ACCESS_GRANT_ID_KEY }

/-- Model of `BTreeMap::insert` on a key-sorted association list: place the
new pair before the first strictly larger key, replacing an equal key.  On a
list whose keys are strictly ascending this is exactly the `BTreeMap`
content, and in-order traversal of the map is the list itself. -/
def insertSorted (key value : String) : List (String × String) → List (String × String)
  | [] => [(key, value)]
  | (k, v) :: rest =>
    if key < k then (key, value) :: (k, v) :: rest
    else if key = k then (key, value) :: rest
    else (k, v) :: insertSorted key value rest

/-- Model of `HashMap::insert` content: replace an existing key in place,
otherwise append.  This captures the key/value content of the map; the
iteration order of a `HashMap` is unspecified, so only the unordered view of
this list is meaningful. -/
def insertHash (key value : String) : List (String × String) → List (String × String)
  | [] => [(key, value)]
  | (k, v) :: rest =>
    if key = k then (key, value) :: rest
    else (k, v) :: insertHash key value rest

/-- Association-list lookup, the model of `map[key]` /
`map.get(key)` on either map model. -/
def getAttr (key : String) : List (String × String) → Option String
  | [] => none
  | (k, v) :: rest => if key = k then some v else getAttr key rest

/-- The builder struct `OsGatewayAttributeGenerator` of
src/attribute_generator.rs; its `attributes: BTreeMap<String, String>` field
is the key-sorted association list. -/
structure OsGatewayAttributeGenerator where
  attributes : List (String × String)

namespace OsGatewayAttributeGenerator

/-- `OsGatewayAttributeGenerator::new` — an empty attribute map. -/
def new : OsGatewayAttributeGenerator := ⟨[]⟩

/-- `OsGatewayAttributeGenerator::insert_attribute`. -/
def insert_attribute (g : OsGatewayAttributeGenerator) (key value : String) :
    OsGatewayAttributeGenerator :=
  ⟨insertSorted key value g.attributes⟩

/-- `OsGatewayAttributeGenerator::with_event_type`. -/
def with_event_type (g : OsGatewayAttributeGenerator) (event_type : String) :
    OsGatewayAttributeGenerator :=
  g.insert_attribute EVENT_TYPE_KEY event_type

/-- `OsGatewayAttributeGenerator::with_scope_address`. -/
def with_scope_address (g : OsGatewayAttributeGenerator) (scope_address : String) :
    OsGatewayAttributeGenerator :=
  g.insert_attribute SCOPE_ADDRESS_KEY scope_address

/-- `OsGatewayAttributeGenerator::with_target_account_address`. -/
def with_target_account_address (g : OsGatewayAttributeGenerator)
    (target_account_address : String) : OsGatewayAttributeGenerator :=
  g.insert_attribute TARGET_ACCOUNT_KEY target_account_address

/-- `OsGatewayAttributeGenerator::with_access_grant_id`. -/
def with_access_grant_id (g : OsGatewayAttributeGenerator) (access_grant_id : String) :
    OsGatewayAttributeGenerator :=
  g.insert_attribute ACCESS_GRANT_ID_KEY access_grant_id

/-- `OsGatewayAttributeGenerator::access_grant`. -/
def access_grant (scope_address target_account_address : String) :
    OsGatewayAttributeGenerator :=
  ((new.with_event_type ACCESS_GRANT_VALUE).with_scope_address
    scope_address).with_target_account_address target_account_address

/-- `OsGatewayAttributeGenerator::access_revoke`. -/
def access_revoke (scope_address target_account_address : String) :
    OsGatewayAttributeGenerator :=
  ((new.with_event_type ACCESS_REVOKE_VALUE).with_scope_address
    scope_address).with_target_account_address target_account_address

/-- `IntoIterator::into_iter` for `OsGatewayAttributeGenerator`: the
`BTreeMap` is drained in ascending key order into a vector, which is our
list as-is. -/
def into_iter (g : OsGatewayAttributeGenerator) : List (String × String) :=
  g.attributes

end OsGatewayAttributeGenerator

/-- The builder struct `OsGatewayEventAttributes` of src/lib.rs; its
`attributes: HashMap<String, String>` field is modelled by the
replace-or-append association list. -/
structure OsGatewayEventAttributes where
  attributes : List (String × String)

namespace OsGatewayEventAttributes

/-- `OsGatewayEventAttributes::new` — an empty attribute map. -/
def new : OsGatewayEventAttributes := ⟨[]⟩

/-- `OsGatewayEventAttributes::insert_attribute`. -/
def insert_attribute (g : OsGatewayEventAttributes) (key value : String) :
    OsGatewayEventAttributes :=
  ⟨insertHash key value g.attributes⟩

/-- `OsGatewayEventAttributes::with_scope_address`. -/
def with_scope_address (g : OsGatewayEventAttributes) (scope_address : String) :
    OsGatewayEventAttributes :=
  g.insert_attribute SCOPE_ADDRESS_KEY scope_address

/-- `OsGatewayEventAttributes::with_target_account_address`. -/
def with_target_account_address (g : OsGatewayEventAttributes)
    (target_account_address : String) : OsGatewayEventAttributes :=
  g.insert_attribute TARGET_ACCOUNT_KEY target_account_address

/-- `OsGatewayEventAttributes::with_access_grant_id`. -/
def with_access_grant_id (g : OsGatewayEventAttributes) (access_grant_id : String) :
    OsGatewayEventAttributes :=
  g.insert_attribute ACCESS_GRANT_ID_KEY access_grant_id

/-- `OsGatewayEventAttributes::access_grant` (inserts the event type
directly via `insert_attribute`, matching src/lib.rs). -/
def access_grant (scope_address target_account_address : String) :
    OsGatewayEventAttributes :=
  ((new.insert_attribute EVENT_TYPE_KEY ACCESS_GRANT_VALUE).with_scope_address
    scope_address).with_target_account_address target_account_address

/-- `OsGatewayEventAttributes::access_revoke`. -/
def access_revoke (scope_address target_account_address : String) :
    OsGatewayEventAttributes :=
  ((new.insert_attribute EVENT_TYPE_KEY ACCESS_REVOKE_VALUE).with_scope_address
    scope_address).with_target_account_address target_account_address

/-- `IntoIterator::into_iter` for `OsGatewayEventAttributes`: the `HashMap`
is drained into a vector in unspecified order; we model the content in
insertion order, and only its unordered view carries meaning. -/
def into_iter (g : OsGatewayEventAttributes) : List (String × String) :=
  g.attributes

end OsGatewayEventAttributes

/-- The event-type value the generator stores for each constructor:
`ACCESS_GRANT_VALUE` for `access_grant`, `ACCESS_REVOKE_VALUE` for
`access_revoke`. -/
def eventValue (grant : Bool) : String :=
  if grant then ACCESS_GRANT_VALUE else ACCESS_REVOKE_VALUE

/-- Every builder state reachable through the public API of
src/attribute_generator.rs: one of the two constructors applied to
`scope`/`target`, followed by a (possibly empty) sequence of
`with_access_grant_id` calls with the ids in `ids`. -/
def build (grant : Bool) (scope target : String) (ids : List String) :
    OsGatewayAttributeGenerator :=
  ids.foldl (fun g id => g.with_access_grant_id id)
    (if grant then OsGatewayAttributeGenerator.access_grant scope target
     else OsGatewayAttributeGenerator.access_revoke scope target)

/-- The same reachable states for the `HashMap`-backed builder of
src/lib.rs. -/
def hashBuild (grant : Bool) (scope target : String) (ids : List String) :
    OsGatewayEventAttributes :=
  ids.foldl (fun g id => g.with_access_grant_id id)
    (if grant then OsGatewayEventAttributes.access_grant scope target
     else OsGatewayEventAttributes.access_revoke scope target)

/-- A builder built from a constructor and at most one optional
`with_access_grant_id` call, the input shape of the determinism claim. -/
def buildOpt (grant : Bool) (scope target : String) (optId : Option String) :
    OsGatewayAttributeGenerator :=
  build grant scope target optId.toList

/-- Last-write-wins résumé of a sequence of `with_access_grant_id` calls:
the last id supplied, if any. -/
def lastOpt (ids : List String) : Option String :=
  ids.foldl (fun _ i => some i) none

/-- The attribute list of a reachable `BTreeMap`-backed builder state, as a
function of the event value, scope, target and the surviving optional id. -/
def baseAttrs (ev scope target : String) : Option String → List (String × String)
  | none =>
      [(EVENT_TYPE_KEY, ev), (SCOPE_ADDRESS_KEY, scope), (TARGET_ACCOUNT_KEY, target)]
  | some id =>
      [(ACCESS_GRANT_ID_KEY, id), (EVENT_TYPE_KEY, ev), (SCOPE_ADDRESS_KEY, scope),
        (TARGET_ACCOUNT_KEY, target)]

/-- The attribute content of a reachable `HashMap`-backed builder state (in
model insertion order). -/
def hashAttrs (ev scope target : String) : Option String → List (String × String)
  | none =>
      [(EVENT_TYPE_KEY, ev), (SCOPE_ADDRESS_KEY, scope), (TARGET_ACCOUNT_KEY, target)]
  | some id =>
      [(EVENT_TYPE_KEY, ev), (SCOPE_ADDRESS_KEY, scope), (TARGET_ACCOUNT_KEY, target),
        (ACCESS_GRANT_ID_KEY, id)]

/-! ### Facts about the concrete key literals -/

/-- `access_grant_id` key sorts before the `event_type` key. -/
lemma agi_lt_et : ACCESS_GRANT_ID_KEY < EVENT_TYPE_KEY := by
  rw [String.lt_iff_toList_lt]; decide

/-- `event_type` key sorts before the `scope_address` key. -/
lemma et_lt_sk : EVENT_TYPE_KEY < SCOPE_ADDRESS_KEY := by
  rw [String.lt_iff_toList_lt]; decide

/-- `scope_address` key sorts before the `target_account` key. -/
lemma sk_lt_tk : SCOPE_ADDRESS_KEY < TARGET_ACCOUNT_KEY := by
  rw [String.lt_iff_toList_lt]; decide

/-- `access_grant_id` key sorts before the `scope_address` key. -/
lemma agi_lt_sk : ACCESS_GRANT_ID_KEY < SCOPE_ADDRESS_KEY := agi_lt_et.trans et_lt_sk

/-- `access_grant_id` key sorts before the `target_account` key. -/
lemma agi_lt_tk : ACCESS_GRANT_ID_KEY < TARGET_ACCOUNT_KEY := agi_lt_sk.trans sk_lt_tk

/-- `event_type` key sorts before the `target_account` key. -/
lemma et_lt_tk : EVENT_TYPE_KEY < TARGET_ACCOUNT_KEY := et_lt_sk.trans sk_lt_tk

/-- The four key literals are pairwise distinct (each direction as needed). -/
lemma sk_ne_et : SCOPE_ADDRESS_KEY ≠ EVENT_TYPE_KEY := by decide

/-- Target key differs from event-type key. -/
lemma tk_ne_et : TARGET_ACCOUNT_KEY ≠ EVENT_TYPE_KEY := by decide

/-- Target key differs from scope key. -/
lemma tk_ne_sk : TARGET_ACCOUNT_KEY ≠ SCOPE_ADDRESS_KEY := by decide

/-- Grant-id key differs from event-type key. -/
lemma agi_ne_et : ACCESS_GRANT_ID_KEY ≠ EVENT_TYPE_KEY := by decide

/-- Grant-id key differs from scope key. -/
lemma agi_ne_sk : ACCESS_GRANT_ID_KEY ≠ SCOPE_ADDRESS_KEY := by decide

/-- Grant-id key differs from target key. -/
lemma agi_ne_tk : ACCESS_GRANT_ID_KEY ≠ TARGET_ACCOUNT_KEY := by decide

/-- Event-type key differs from grant-id key. -/
lemma et_ne_agi : EVENT_TYPE_KEY ≠ ACCESS_GRANT_ID_KEY := by decide

/-- Scope key differs from grant-id key. -/
lemma sk_ne_agi : SCOPE_ADDRESS_KEY ≠ ACCESS_GRANT_ID_KEY := by decide

/-- Target key differs from grant-id key. -/
lemma tk_ne_agi : TARGET_ACCOUNT_KEY ≠ ACCESS_GRANT_ID_KEY := by decide

/-- Character-list form of `agi_lt_et`, the shape `simp` normalizes to. -/
lemma agi_lt_et_data : ACCESS_GRANT_ID_KEY.data < EVENT_TYPE_KEY.data := by decide

/-- Character-list form of `et_lt_sk`. -/
lemma et_lt_sk_data : EVENT_TYPE_KEY.data < SCOPE_ADDRESS_KEY.data := by decide

/-- Character-list form of `sk_lt_tk`. -/
lemma sk_lt_tk_data : SCOPE_ADDRESS_KEY.data < TARGET_ACCOUNT_KEY.data := by decide

/-- Character-list form of `agi_lt_sk`. -/
lemma agi_lt_sk_data : ACCESS_GRANT_ID_KEY.data < SCOPE_ADDRESS_KEY.data := by decide

/-- Character-list form of `agi_lt_tk`. -/
lemma agi_lt_tk_data : ACCESS_GRANT_ID_KEY.data < TARGET_ACCOUNT_KEY.data := by decide

/-- Character-list form of `et_lt_tk`. -/
lemma et_lt_tk_data : EVENT_TYPE_KEY.data < TARGET_ACCOUNT_KEY.data := by decide

/-- The scope key does not sort below the event-type key (character-list form). -/
lemma not_sk_lt_et_data : ¬ SCOPE_ADDRESS_KEY.data < EVENT_TYPE_KEY.data := by decide

/-- The target key does not sort below the event-type key (character-list form). -/
lemma not_tk_lt_et_data : ¬ TARGET_ACCOUNT_KEY.data < EVENT_TYPE_KEY.data := by decide

/-- The target key does not sort below the scope key (character-list form). -/
lemma not_tk_lt_sk_data : ¬ TARGET_ACCOUNT_KEY.data < SCOPE_ADDRESS_KEY.data := by decide

/-- The event-type key is not at or below the grant-id key (character-list form). -/
lemma not_et_le_agi_data : ¬ EVENT_TYPE_KEY.data ≤ ACCESS_GRANT_ID_KEY.data := by decide

/-! ### Closed forms for the reachable builder states -/

/-- `access_grant` yields exactly the three mandatory attributes, in sorted
order. -/
lemma access_grant_eq (s t : String) :
    OsGatewayAttributeGenerator.access_grant s t =
      ⟨baseAttrs ACCESS_GRANT_VALUE s t none⟩ := by
  simp [OsGatewayAttributeGenerator.access_grant, OsGatewayAttributeGenerator.new,
    OsGatewayAttributeGenerator.with_event_type, OsGatewayAttributeGenerator.with_scope_address,
    OsGatewayAttributeGenerator.with_target_account_address,
    OsGatewayAttributeGenerator.insert_attribute, insertSorted, baseAttrs,
    et_lt_sk.asymm, sk_ne_et, et_lt_tk.asymm, tk_ne_et, sk_lt_tk.asymm, tk_ne_sk]

/-- `access_revoke` yields exactly the three mandatory attributes, in sorted
order. -/
lemma access_revoke_eq (s t : String) :
    OsGatewayAttributeGenerator.access_revoke s t =
      ⟨baseAttrs ACCESS_REVOKE_VALUE s t none⟩ := by
  simp [OsGatewayAttributeGenerator.access_revoke, OsGatewayAttributeGenerator.new,
    OsGatewayAttributeGenerator.with_event_type, OsGatewayAttributeGenerator.with_scope_address,
    OsGatewayAttributeGenerator.with_target_account_address,
    OsGatewayAttributeGenerator.insert_attribute, insertSorted, baseAttrs,
    et_lt_sk.asymm, sk_ne_et, et_lt_tk.asymm, tk_ne_et, sk_lt_tk.asymm, tk_ne_sk]

/-- One `with_access_grant_id` call on a reachable state: the grant-id pair
is inserted at the front (its key sorts first) or overwritten in place. -/
lemma withId_baseAttrs (ev s t i : String) (o : Option String) :
    (OsGatewayAttributeGenerator.mk (baseAttrs ev s t o)).with_access_grant_id i =
      ⟨baseAttrs ev s t (some i)⟩ := by
  cases o with
  | none =>
      simp [OsGatewayAttributeGenerator.with_access_grant_id,
        OsGatewayAttributeGenerator.insert_attribute, baseAttrs, insertSorted,
        agi_lt_et, agi_lt_et_data, agi_lt_sk_data, agi_lt_tk_data, agi_ne_et,
        agi_ne_sk, agi_ne_tk, not_et_le_agi_data]
  | some j =>
      simp [OsGatewayAttributeGenerator.with_access_grant_id,
        OsGatewayAttributeGenerator.insert_attribute, baseAttrs, insertSorted]

/-- Folding any sequence of `with_access_grant_id` calls over a reachable
state keeps the closed form, with last-write-wins on the id. -/
lemma foldl_withId (ev s t : String) (ids : List String) :
    ∀ o : Option String,
      ids.foldl (fun g id => g.with_access_grant_id id)
          (OsGatewayAttributeGenerator.mk (baseAttrs ev s t o)) =
        ⟨baseAttrs ev s t (ids.foldl (fun _ i => some i) o)⟩ := by
  induction ids with
  | nil => intro o; rfl
  | cons i ids ih =>
      intro o
      simp only [List.foldl_cons]
      rw [withId_baseAttrs]
      exact ih (some i)

/-- Closed form for every reachable `BTreeMap`-backed builder state. -/
lemma build_eq (grant : Bool) (s t : String) (ids : List String) :
    build grant s t ids = ⟨baseAttrs (eventValue grant) s t (lastOpt ids)⟩ := by
  cases grant with
  | false =>
      show ids.foldl _ (OsGatewayAttributeGenerator.access_revoke s t) = _
      rw [access_revoke_eq]
      exact foldl_withId _ _ _ ids none
  | true =>
      show ids.foldl _ (OsGatewayAttributeGenerator.access_grant s t) = _
      rw [access_grant_eq]
      exact foldl_withId _ _ _ ids none

/-- `OsGatewayEventAttributes::access_grant` yields exactly the three
mandatory attributes (content view). -/
lemma hash_access_grant_eq (s t : String) :
    OsGatewayEventAttributes.access_grant s t =
      ⟨hashAttrs ACCESS_GRANT_VALUE s t none⟩ := by
  simp [OsGatewayEventAttributes.access_grant, OsGatewayEventAttributes.new,
    OsGatewayEventAttributes.with_scope_address,
    OsGatewayEventAttributes.with_target_account_address,
    OsGatewayEventAttributes.insert_attribute, insertHash, hashAttrs,
    sk_ne_et, tk_ne_et, tk_ne_sk]

/-- `OsGatewayEventAttributes::access_revoke` yields exactly the three
mandatory attributes (content view). -/
lemma hash_access_revoke_eq (s t : String) :
    OsGatewayEventAttributes.access_revoke s t =
      ⟨hashAttrs ACCESS_REVOKE_VALUE s t none⟩ := by
  simp [OsGatewayEventAttributes.access_revoke, OsGatewayEventAttributes.new,
    OsGatewayEventAttributes.with_scope_address,
    OsGatewayEventAttributes.with_target_account_address,
    OsGatewayEventAttributes.insert_attribute, insertHash, hashAttrs,
    sk_ne_et, tk_ne_et, tk_ne_sk]

/-- One `with_access_grant_id` call on a reachable `HashMap`-backed state:
the grant-id pair is appended or overwritten in place. -/
lemma withId_hashAttrs (ev s t i : String) (o : Option String) :
    (OsGatewayEventAttributes.mk (hashAttrs ev s t o)).with_access_grant_id i =
      ⟨hashAttrs ev s t (some i)⟩ := by
  cases o with
  | none =>
      simp [OsGatewayEventAttributes.with_access_grant_id,
        OsGatewayEventAttributes.insert_attribute, hashAttrs, insertHash,
        agi_ne_et, agi_ne_sk, agi_ne_tk]
  | some j =>
      simp [OsGatewayEventAttributes.with_access_grant_id,
        OsGatewayEventAttributes.insert_attribute, hashAttrs, insertHash,
        agi_ne_et, agi_ne_sk, agi_ne_tk]

/-- Folding `with_access_grant_id` calls over a reachable `HashMap`-backed
state keeps the closed form, last-write-wins. -/
lemma foldl_withId_hash (ev s t : String) (ids : List String) :
    ∀ o : Option String,
      ids.foldl (fun g id => g.with_access_grant_id id)
          (OsGatewayEventAttributes.mk (hashAttrs ev s t o)) =
        ⟨hashAttrs ev s t (ids.foldl (fun _ i => some i) o)⟩ := by
  induction ids with
  | nil => intro o; rfl
  | cons i ids ih =>
      intro o
      simp only [List.foldl_cons]
      rw [withId_hashAttrs]
      exact ih (some i)

/-- Closed form for every reachable `HashMap`-backed builder state. -/
lemma hashBuild_eq (grant : Bool) (s t : String) (ids : List String) :
    hashBuild grant s t ids = ⟨hashAttrs (eventValue grant) s t (lastOpt ids)⟩ := by
  cases grant with
  | false =>
      show ids.foldl _ (OsGatewayEventAttributes.access_revoke s t) = _
      rw [hash_access_revoke_eq]
      exact foldl_withId_hash _ _ _ ids none
  | true =>
      show ids.foldl _ (OsGatewayEventAttributes.access_grant s t) = _
      rw [hash_access_grant_eq]
      exact foldl_withId_hash _ _ _ ids none

/-! ### Properties of the closed forms -/

/-- The hash-model content is a permutation of the sorted content. -/
lemma hashAttrs_perm_baseAttrs (ev s t : String) (o : Option String) :
    (hashAttrs ev s t o).Perm (baseAttrs ev s t o) := by
  cases o with
  | none => exact List.Perm.refl _
  | some id =>
      exact List.perm_append_singleton (ACCESS_GRANT_ID_KEY, id)
        [(EVENT_TYPE_KEY, ev), (SCOPE_ADDRESS_KEY, s), (TARGET_ACCOUNT_KEY, t)]

/-- The keys of a reachable sorted state are strictly ascending. -/
lemma baseAttrs_pairwise (ev s t : String) (o : Option String) :
    (baseAttrs ev s t o).Pairwise (fun p q : String × String => p.1 < q.1) := by
  cases o with
  | none =>
      simp [baseAttrs, List.pairwise_cons, et_lt_sk_data, et_lt_tk_data, sk_lt_tk_data]
  | some id =>
      simp [baseAttrs, List.pairwise_cons, et_lt_sk_data, et_lt_tk_data, sk_lt_tk_data,
        agi_lt_et_data, agi_lt_sk_data, agi_lt_tk_data]

/-- Lookup of the event-type key on a reachable state. -/
lemma getAttr_et_baseAttrs (ev s t : String) (o : Option String) :
    getAttr EVENT_TYPE_KEY (baseAttrs ev s t o) = some ev := by
  cases o <;> simp [baseAttrs, getAttr, et_ne_agi]

/-- Lookup of the scope-address key on a reachable state. -/
lemma getAttr_sk_baseAttrs (ev s t : String) (o : Option String) :
    getAttr SCOPE_ADDRESS_KEY (baseAttrs ev s t o) = some s := by
  cases o <;> simp [baseAttrs, getAttr, sk_ne_agi, sk_ne_et]

/-- Lookup of the target-account key on a reachable state. -/
lemma getAttr_tk_baseAttrs (ev s t : String) (o : Option String) :
    getAttr TARGET_ACCOUNT_KEY (baseAttrs ev s t o) = some t := by
  cases o <;> simp [baseAttrs, getAttr, tk_ne_agi, tk_ne_et, tk_ne_sk]

/-- Lookup of the access-grant-id key on a reachable state: exactly the
surviving optional id. -/
lemma getAttr_agi_baseAttrs (ev s t : String) (o : Option String) :
    getAttr ACCESS_GRANT_ID_KEY (baseAttrs ev s t o) = o := by
  cases o <;> simp [baseAttrs, getAttr, agi_ne_et, agi_ne_sk, agi_ne_tk]

/-- Lookup after a sorted insert: the inserted key now maps to the inserted
value and every other key is untouched.  Holds for arbitrary association
lists. -/
lemma getAttr_insertSorted (k key value : String) :
    ∀ l : List (String × String),
      getAttr k (insertSorted key value l) =
        if k = key then some value else getAttr k l := by
  intro l
  induction l with
  | nil => simp [insertSorted, getAttr]
  | cons p rest ih =>
      obtain ⟨a, b⟩ := p
      simp only [insertSorted]
      by_cases h1 : key < a
      · rw [if_pos h1]
        rfl
      · rw [if_neg h1]
        by_cases h2 : key = a
        · rw [if_pos h2]
          subst h2
          by_cases hk : k = key <;> simp [getAttr, hk]
        · rw [if_neg h2]
          by_cases hk : k = a
          · subst hk
            have hkk : ¬ k = key := fun h => h2 h.symm
            simp [getAttr, hkk]
          · simp only [getAttr, if_neg hk, ih]

/-- `lastOpt` skips all but the two last calls. -/
lemma lastOpt_cons_cons (i j : String) (ids : List String) :
    lastOpt (i :: j :: ids) = lastOpt (j :: ids) := rfl

/-- The last-write-wins résumé of the id calls is the last id supplied. -/
lemma lastOpt_eq_getLast? (ids : List String) : lastOpt ids = ids.getLast? := by
  induction ids with
  | nil => rfl
  | cons i ids ih =>
      cases ids with
      | nil => rfl
      | cons j tl =>
          rw [lastOpt_cons_cons, ih, List.getLast?_cons_cons]

/-- The keys of any reachable finalized sequence are exactly the three
mandatory keys in order, or the grant-id key followed by them. -/
lemma build_keys (grant : Bool) (scope target : String) (ids : List String) :
    ((build grant scope target ids).into_iter).map Prod.fst =
        [EVENT_TYPE_KEY, SCOPE_ADDRESS_KEY, TARGET_ACCOUNT_KEY] ∨
      ((build grant scope target ids).into_iter).map Prod.fst =
        [ACCESS_GRANT_ID_KEY, EVENT_TYPE_KEY, SCOPE_ADDRESS_KEY, TARGET_ACCOUNT_KEY] := by
  rw [build_eq]
  cases hl : lastOpt ids with
  | none => left; rfl
  | some i => right; rfl

/-! ### The claims -/

/-- C1: for every builder — either constructor, any order and number of
`with_access_grant_id` calls — finalization via `into_iter` yields the
key/value pairs with keys in strictly ascending lexicographic string
order. -/
theorem C1_finalize_keys_strictly_ascending (grant : Bool) (scope target : String)
    (ids : List String) :
    ((build grant scope target ids).into_iter).Pairwise
      (fun p q : String × String => p.1 < q.1) := by
  rw [build_eq]
  exact baseAttrs_pairwise _ _ _ _

/-- C2: `access_grant(scope, target)` finalizes to exactly the 3 pairs
event-type ↦ `access_grant`, scope-address ↦ `scope`, target-account ↦
`target`; `access_revoke` yields the same shape with value
`access_revoke`. -/
theorem C2_constructor_shapes (scope target : String) :
    (OsGatewayAttributeGenerator.access_grant scope target).into_iter =
        [(EVENT_TYPE_KEY, ACCESS_GRANT_VALUE), (SCOPE_ADDRESS_KEY, scope),
          (TARGET_ACCOUNT_KEY, target)] ∧
      (OsGatewayAttributeGenerator.access_revoke scope target).into_iter =
        [(EVENT_TYPE_KEY, ACCESS_REVOKE_VALUE), (SCOPE_ADDRESS_KEY, scope),
          (TARGET_ACCOUNT_KEY, target)] := by
  constructor
  · rw [access_grant_eq]
    rfl
  · rw [access_revoke_eq]
    rfl

/-- C3: one `with_access_grant_id(id)` call on a fresh builder yields
exactly 4 pairs with the id attribute equal to `id` verbatim; a second call
overwrites (last-write-wins), and repetition with the same id is
idempotent. -/
theorem C3_with_access_grant_id_last_write_wins (grant : Bool)
    (scope target id id1 id2 : String) :
    ((build grant scope target []).with_access_grant_id id).into_iter =
        [(ACCESS_GRANT_ID_KEY, id), (EVENT_TYPE_KEY, eventValue grant),
          (SCOPE_ADDRESS_KEY, scope), (TARGET_ACCOUNT_KEY, target)] ∧
      ((build grant scope target []).with_access_grant_id id1).with_access_grant_id id2 =
        (build grant scope target []).with_access_grant_id id2 ∧
      ((build grant scope target []).with_access_grant_id id).with_access_grant_id id =
        (build grant scope target []).with_access_grant_id id := by
  have hb : build grant scope target [] =
      ⟨baseAttrs (eventValue grant) scope target none⟩ := build_eq grant scope target []
  refine ⟨?_, ?_, ?_⟩
  · rw [hb, withId_baseAttrs]
    rfl
  · rw [hb]
    simp only [withId_baseAttrs]
  · rw [hb]
    simp only [withId_baseAttrs]

/-- C4: construction is deterministic — two builders built from identical
inputs (constructor choice, scope, target, and the same optional id or its
absence) finalize to identical ordered pair sequences. -/
theorem C4_deterministic (grant : Bool) (scope target : String) (optId : Option String)
    (g1 g2 : OsGatewayAttributeGenerator)
    (h1 : g1 = buildOpt grant scope target optId)
    (h2 : g2 = buildOpt grant scope target optId) :
    g1.into_iter = g2.into_iter := by
  subst h1
  subst h2
  rfl

/-- Witness for C4 at a concrete input: a fresh `access_grant` builder and
an independently built one from the same inputs finalize identically. -/
theorem C4_deterministic_witness :
    (OsGatewayAttributeGenerator.access_grant "scope" "target").into_iter =
      (buildOpt true "scope" "target" none).into_iter :=
  C4_deterministic true "scope" "target" none _ _ rfl rfl

/-- C5: the wire literals are fixed — the four attribute keys are exactly
the published strings (also as re-exported by `OS_GATEWAY_KEYS` and the
event-type values by `OS_GATEWAY_EVENT_TYPES`), every reachable finalized
sequence uses only those four keys, and the only values ever stored under
the event-type key are `access_grant` and `access_revoke`. -/
theorem C5_wire_literals_fixed :
    EVENT_TYPE_KEY = "object_store_gateway_event_type" ∧
    SCOPE_ADDRESS_KEY = "object_store_gateway_scope_address" ∧
    TARGET_ACCOUNT_KEY = "object_store_gateway_target_account_address" ∧
    ACCESS_GRANT_ID_KEY = "object_store_gateway_access_grant_id" ∧
    OS_GATEWAY_KEYS.event_type = EVENT_TYPE_KEY ∧
    OS_GATEWAY_KEYS.scope_address = SCOPE_ADDRESS_KEY ∧
    OS_GATEWAY_KEYS.target_account = TARGET_ACCOUNT_KEY ∧
    OS_GATEWAY_KEYS.access_grant_id = ACCESS_GRANT_ID_KEY ∧
    OS_GATEWAY_EVENT_TYPES.access_grant = ACCESS_GRANT_VALUE ∧
    OS_GATEWAY_EVENT_TYPES.access_revoke = ACCESS_REVOKE_VALUE ∧
    (∀ (grant : Bool) (scope target : String) (ids : List String),
      ((build grant scope target ids).into_iter).map Prod.fst =
          [EVENT_TYPE_KEY, SCOPE_ADDRESS_KEY, TARGET_ACCOUNT_KEY] ∨
        ((build grant scope target ids).into_iter).map Prod.fst =
          [ACCESS_GRANT_ID_KEY, EVENT_TYPE_KEY, SCOPE_ADDRESS_KEY, TARGET_ACCOUNT_KEY]) ∧
    (∀ (grant : Bool) (scope target : String) (ids : List String),
      getAttr EVENT_TYPE_KEY ((build grant scope target ids).into_iter) =
          some ACCESS_GRANT_VALUE ∨
        getAttr EVENT_TYPE_KEY ((build grant scope target ids).into_iter) =
          some ACCESS_REVOKE_VALUE) := by
  refine ⟨rfl, rfl, rfl, rfl, rfl, rfl, rfl, rfl, rfl, rfl, build_keys, ?_⟩
  intro grant scope target ids
  rw [build_eq]
  cases grant with
  | false =>
      right
      exact getAttr_et_baseAttrs _ _ _ _
  | true =>
      left
      exact getAttr_et_baseAttrs _ _ _ _

/-- C6: the access-grant-id attribute of a finalized sequence is exactly
the last id supplied by `with_access_grant_id`, and absent (`none`, with no
pair carrying its key at all) when the call was never made. -/
theorem C6_access_grant_id_iff_supplied (grant : Bool) (scope target : String)
    (ids : List String) :
    getAttr ACCESS_GRANT_ID_KEY ((build grant scope target ids).into_iter) =
        ids.getLast? ∧
      (ids = [] →
        ((build grant scope target ids).into_iter).filter
            (fun p => p.1 = ACCESS_GRANT_ID_KEY) = []) := by
  constructor
  · rw [build_eq]
    exact (getAttr_agi_baseAttrs _ _ _ _).trans (lastOpt_eq_getLast? ids)
  · intro h
    subst h
    rw [build_eq]
    simp [baseAttrs, lastOpt, OsGatewayAttributeGenerator.into_iter,
      et_ne_agi, sk_ne_agi, tk_ne_agi]

/-- Witness for C6 at a concrete input: with no id supplied, no pair with
the access-grant-id key appears. -/
theorem C6_access_grant_id_iff_supplied_witness :
    ((build true "scope" "target" []).into_iter).filter
        (fun p => p.1 = ACCESS_GRANT_ID_KEY) = [] :=
  (C6_access_grant_id_iff_supplied true "scope" "target" []).2 rfl

/-- C7: every reachable builder state has unique keys, exactly one
event-type entry whose value is `access_grant` or `access_revoke`, always
the scope and target entries with the constructor arguments, and
finalizes to exactly 3 or 4 pairs. -/
theorem C7_reachable_state_invariant (grant : Bool) (scope target : String)
    (ids : List String) :
    (((build grant scope target ids).into_iter).map Prod.fst).Nodup ∧
      getAttr EVENT_TYPE_KEY ((build grant scope target ids).into_iter) =
        some (eventValue grant) ∧
      (eventValue grant = ACCESS_GRANT_VALUE ∨ eventValue grant = ACCESS_REVOKE_VALUE) ∧
      getAttr SCOPE_ADDRESS_KEY ((build grant scope target ids).into_iter) = some scope ∧
      getAttr TARGET_ACCOUNT_KEY ((build grant scope target ids).into_iter) = some target ∧
      (((build grant scope target ids).into_iter).map Prod.fst =
          [EVENT_TYPE_KEY, SCOPE_ADDRESS_KEY, TARGET_ACCOUNT_KEY] ∨
        ((build grant scope target ids).into_iter).map Prod.fst =
          [ACCESS_GRANT_ID_KEY, EVENT_TYPE_KEY, SCOPE_ADDRESS_KEY, TARGET_ACCOUNT_KEY]) ∧
      (((build grant scope target ids).into_iter).length = 3 ∨
        ((build grant scope target ids).into_iter).length = 4) := by
  refine ⟨?_, ?_, ?_, ?_, ?_, build_keys grant scope target ids, ?_⟩
  · rcases build_keys grant scope target ids with h | h <;> rw [h] <;> decide
  · rw [build_eq]
    exact getAttr_et_baseAttrs _ _ _ _
  · cases grant with
    | false => right; rfl
    | true => left; rfl
  · rw [build_eq]
    exact getAttr_sk_baseAttrs _ _ _ _
  · rw [build_eq]
    exact getAttr_tk_baseAttrs _ _ _ _
  · rw [build_eq]
    cases hl : lastOpt ids with
    | none => left; rfl
    | some i => right; rfl

/-- C8: every public operation chain is total — for arbitrary input strings
(including empty strings) construction and finalization always produce a
well-formed sequence of 3 or 4 pairs; there is no error or failure
outcome. -/
theorem C8_operations_total (grant : Bool) (scope target : String)
    (ids : List String) :
    ∃ output : List (String × String),
      (build grant scope target ids).into_iter = output ∧
        (output.length = 3 ∨ output.length = 4) := by
  refine ⟨_, rfl, ?_⟩
  rw [build_eq]
  cases hl : lastOpt ids with
  | none => left; rfl
  | some i => right; rfl

/-- C9: for every input, the `HashMap`-backed `OsGatewayEventAttributes`
and the `BTreeMap`-backed `OsGatewayAttributeGenerator` finalize to
sequences equal as unordered key/value collections (a permutation), and
only the `BTreeMap` variant additionally guarantees ascending key order. -/
theorem C9_two_implementations_agree (grant : Bool) (scope target : String)
    (ids : List String) :
    ((hashBuild grant scope target ids).into_iter).Perm
        ((build grant scope target ids).into_iter) ∧
      ((build grant scope target ids).into_iter).Pairwise
        (fun p q : String × String => p.1 < q.1) := by
  constructor
  · rw [build_eq, hashBuild_eq]
    exact hashAttrs_perm_baseAttrs _ _ _ _
  · rw [build_eq]
    exact baseAttrs_pairwise _ _ _ _

/-- C10: `with_access_grant_id` changes only the access-grant-id entry —
lookup of any other key is identical before and after the call, for every
builder state. -/
theorem C10_with_access_grant_id_frame (g : OsGatewayAttributeGenerator)
    (id k : String) (hk : k ≠ ACCESS_GRANT_ID_KEY) :
    getAttr k ((g.with_access_grant_id id).into_iter) =
      getAttr k (g.into_iter) := by
  show getAttr k (insertSorted ACCESS_GRANT_ID_KEY id g.attributes) =
    getAttr k g.attributes
  rw [getAttr_insertSorted, if_neg hk]

/-- Witness for C10 at a concrete input: the event-type entry is untouched
by `with_access_grant_id`. -/
theorem C10_with_access_grant_id_frame_witness :
    getAttr EVENT_TYPE_KEY
        (((OsGatewayAttributeGenerator.access_grant "a" "b").with_access_grant_id
            "x").into_iter) =
      getAttr EVENT_TYPE_KEY
        ((OsGatewayAttributeGenerator.access_grant "a" "b").into_iter) :=
  C10_with_access_grant_id_frame _ "x" EVENT_TYPE_KEY (by decide)
